import Mathlib

/-!
Verification development for the BrandForge repository.

The file shallowly embeds the repository's core logic:
  * `src/utils/colorUtils.ts` — hex parsing, relative luminance, contrast
    ratio and accessibility classification (real-number idealisation of the
    JS float arithmetic);
  * the service module (`analyzeBrandFromUrl`, `fetchScreenshotBase64`,
    `generateLogoVariant`, `generateBrandAsset`) — modelled as pure
    functions of an explicit environment describing the external
    collaborators' behaviour;
  * the application orchestration (`startGeneration`, `handleAnalyze`,
    `handleDownloadZip`) — modelled as pure functions over task-outcome
    environments with explicit settle times.
-/

/-! ## Part 1: colorUtils.ts -/

/-- The RGB triple produced by `hexToRgb`. -/
structure Rgb where
  r : Nat
  g : Nat
  b : Nat
deriving DecidableEq

/-- One hex digit, per the regex character class `[a-f\d]` under the `/i`
flag (i.e. `[0-9a-fA-F]`); `48..57` are `'0'..'9'`, `97..102` are
`'a'..'f'`, `65..70` are `'A'..'F'`. -/
def hexDigit? (c : Char) : Option Nat :=
  if 48 ≤ c.toNat ∧ c.toNat ≤ 57 then some (c.toNat - 48)
  else if 97 ≤ c.toNat ∧ c.toNat ≤ 102 then some (c.toNat - 97 + 10)
  else if 65 ≤ c.toNat ∧ c.toNat ≤ 70 then some (c.toNat - 65 + 10)
  else none

/-- Value of a two-hex-digit group, as `parseInt(group, 16)` computes it on
the groups captured by `hexToRgb`'s regex. -/
def hexPair? (a b : Char) : Option Nat :=
  match hexDigit? a, hexDigit? b with
  | some x, some y => some (16 * x + y)
  | _, _ => none

/-- `hexToRgb` of colorUtils.ts: the anchored regex
`/^#?([a-f\d]{2})([a-f\d]{2})([a-f\d]{2})$/i` — an optional leading `#`
followed by exactly six hex digits — with the three captured pairs read as
base-16 integers. -/
def stripHash (cs : List Char) : List Char :=
  match cs with
  | '#' :: rest => rest
  | cs => cs

def hexToRgb (hex : String) : Option Rgb :=
  match stripHash hex.data with
  | [c1, c2, c3, c4, c5, c6] =>
    match hexPair? c1 c2, hexPair? c3 c4, hexPair? c5 c6 with
    | some r, some g, some b => some ⟨r, g, b⟩
    | _, _, _ => none
  | _ => none

/-- The per-channel sRGB transfer function applied by `luminance` to each
normalized channel value `v = c/255`:
`v <= 0.03928 ? v / 12.92 : ((v + 0.055) / 1.055) ^ 2.4`. -/
noncomputable def srgbChannel (v : ℝ) : ℝ :=
  if v ≤ 0.03928 then v / 12.92 else ((v + 0.055) / 1.055) ^ (2.4 : ℝ)

/-- `luminance` of colorUtils.ts: weighted sum of the transferred channels,
weights 0.2126 / 0.7152 / 0.0722. -/
noncomputable def luminance (r g b : ℝ) : ℝ :=
  0.2126 * srgbChannel (r / 255) + 0.7152 * srgbChannel (g / 255) +
    0.0722 * srgbChannel (b / 255)

/-- `calculateContrast` of colorUtils.ts:
`(max(lum1,lum2) + 0.05) / (min(lum1,lum2) + 0.05)`. -/
noncomputable def calculateContrast (rgb1 rgb2 : Rgb) : ℝ :=
  let lum1 := luminance rgb1.r rgb1.g rgb1.b
  let lum2 := luminance rgb2.r rgb2.g rgb2.b
  (max lum1 lum2 + 0.05) / (min lum1 lum2 + 0.05)

/-- `parseFloat(x.toFixed(2))`: rounding to two decimal places (round to
nearest hundredth, halves up — the values at play are positive). -/
noncomputable def round2 (x : ℝ) : ℝ :=
  (round (x * 100) : ℝ) / 100

/-- The `ColorMetrics` record returned by `analyzeColor`. -/
structure ColorMetrics where
  hex : String
  contrastWhite : ℝ
  contrastBlack : ℝ
  accessibility : String

/-- The pure white reference color. -/
def whiteRgb : Rgb := ⟨255, 255, 255⟩

/-- The pure black reference color. -/
def blackRgb : Rgb := ⟨0, 0, 0⟩

/-- `analyzeColor` of colorUtils.ts.  On parse failure it returns the
`Invalid` record; otherwise it rounds both contrast ratios to two decimals
and then runs the sequential classification
`acc = 'Fail'; if (cw>=4.5||cb>=4.5) acc='AA'; if (cw>=7||cb>=7) acc='AAA'`. -/
noncomputable def analyzeColor (hex : String) : ColorMetrics :=
  match hexToRgb hex with
  | none => { hex := hex, contrastWhite := 0, contrastBlack := 0, accessibility := "Invalid" }
  | some rgb =>
    let contrastWhite := round2 (calculateContrast rgb whiteRgb)
    let contrastBlack := round2 (calculateContrast rgb blackRgb)
    let acc0 := "Fail"
    let acc1 := if 4.5 ≤ contrastWhite ∨ 4.5 ≤ contrastBlack then "AA" else acc0
    let acc2 := if 7 ≤ contrastWhite ∨ 7 ≤ contrastBlack then "AAA" else acc1
    { hex := hex, contrastWhite := contrastWhite, contrastBlack := contrastBlack,
      accessibility := acc2 }

/-! ## Part 2: the service module (screenshot capture, brand analysis)

The external collaborators (the screenshot service, the `FileReader`, the
Gemini calls) are modelled as explicit environments; everything the module
itself computes (URL normalisation, response validation, code-fence
stripping, JSON parsing, the 40 s race) is embedded directly. -/

/-- JSON values, as produced by `JSON.parse`.  Numbers are kept as their raw
numeral text; objects keep their fields in source order. -/
inductive Json where
  | jnull : Json
  | jbool : Bool → Json
  | jnum : String → Json
  | jstr : String → Json
  | jarr : List Json → Json
  | jobj : List (String × Json) → Json

/-- JSON whitespace: space, tab, newline, carriage return.  The trim model
below strips the same set, which covers the texts at play. -/
def isWsChar (c : Char) : Bool :=
  c = ' ' ∨ c = '\t' ∨ c = '\n' ∨ c = '\r'

/-- Drop leading whitespace. -/
def skipWs : List Char → List Char
  | [] => []
  | c :: rest => if isWsChar c then skipWs rest else c :: rest

/-- Decode one JSON escape sequence (the part after the backslash),
returning the decoded character and the remaining input. -/
def unescape? : List Char → Option (Char × List Char)
  | '"' :: rest => some ('"', rest)
  | '\\' :: rest => some ('\\', rest)
  | '/' :: rest => some ('/', rest)
  | 'b' :: rest => some ('\x08', rest)
  | 'f' :: rest => some ('\x0c', rest)
  | 'n' :: rest => some ('\n', rest)
  | 'r' :: rest => some ('\r', rest)
  | 't' :: rest => some ('\t', rest)
  | 'u' :: a :: b :: c :: d :: rest =>
    match hexDigit? a, hexDigit? b, hexDigit? c, hexDigit? d with
    | some w, some x, some y, some z =>
      some (Char.ofNat (((w * 16 + x) * 16 + y) * 16 + z), rest)
    | _, _, _, _ => none
  | _ => none

/-- Parse the body of a JSON string literal (after the opening quote):
characters until the closing quote, escapes decoded, raw control
characters rejected. -/
def parseStringBody : Nat → List Char → Option (List Char × List Char)
  | 0, _ => none
  | _ + 1, [] => none
  | fuel + 1, c :: rest =>
    if c = '"' then some ([], rest)
    else if c = '\\' then
      match unescape? rest with
      | none => none
      | some (ch, rest2) =>
        match parseStringBody fuel rest2 with
        | none => none
        | some (s, r) => some (ch :: s, r)
    else if c.toNat < 32 then none
    else
      match parseStringBody fuel rest with
      | none => none
      | some (s, r) => some (c :: s, r)

/-- Optional exponent of a JSON numeral. -/
def parseExpPart (acc : List Char) (cs : List Char) : Option (List Char × List Char) :=
  match cs with
  | [] => some (acc, [])
  | e :: rest =>
    if e = 'e' ∨ e = 'E' then
      match rest with
      | '+' :: r =>
        if (r.takeWhile Char.isDigit).isEmpty then none
        else some (acc ++ e :: '+' :: r.takeWhile Char.isDigit, r.dropWhile Char.isDigit)
      | '-' :: r =>
        if (r.takeWhile Char.isDigit).isEmpty then none
        else some (acc ++ e :: '-' :: r.takeWhile Char.isDigit, r.dropWhile Char.isDigit)
      | r =>
        if (r.takeWhile Char.isDigit).isEmpty then none
        else some (acc ++ e :: r.takeWhile Char.isDigit, r.dropWhile Char.isDigit)
    else some (acc, cs)

/-- Optional fraction (then exponent) of a JSON numeral. -/
def parseFracExp (acc : List Char) (cs : List Char) : Option (List Char × List Char) :=
  match cs with
  | '.' :: rest =>
    if (rest.takeWhile Char.isDigit).isEmpty then none
    else parseExpPart (acc ++ '.' :: rest.takeWhile Char.isDigit) (rest.dropWhile Char.isDigit)
  | _ => parseExpPart acc cs

/-- Parse a JSON numeral (optional sign, integer part `0` or a nonzero-led
digit run, optional fraction, optional exponent), returning its raw text. -/
def parseNumber (cs : List Char) : Option (List Char × List Char) :=
  match cs with
  | '-' :: c :: rest =>
    if c = '0' then parseFracExp ['-', c] rest
    else if c.isDigit then
      parseFracExp ('-' :: c :: rest.takeWhile Char.isDigit) (rest.dropWhile Char.isDigit)
    else none
  | c :: rest =>
    if c = '0' then parseFracExp [c] rest
    else if c.isDigit then
      parseFracExp (c :: rest.takeWhile Char.isDigit) (rest.dropWhile Char.isDigit)
    else none
  | [] => none

/-- Parse request kind for `parseJ`: a single value, the element list of an
array (after a non-empty `[`), or the field list of an object (after a
non-empty opening brace). -/
inductive PReq where
  | val : PReq
  | arrElems : PReq
  | objElems : PReq

/-- Result of one `parseJ` call, matching the request kind. -/
inductive PRes where
  | val : Json → PRes
  | arrElems : List Json → PRes
  | objElems : List (String × Json) → PRes

/-- Fuel-indexed JSON parser (`JSON.parse` grammar): literals, strings,
numbers, arrays and objects, with no trailing commas. -/
def parseJ : Nat → PReq → List Char → Option (PRes × List Char)
  | 0, _, _ => none
  | fuel + 1, .val, cs =>
    match skipWs cs with
    | [] => none
    | c :: rest =>
      if c = 'n' then
        match rest with
        | 'u' :: 'l' :: 'l' :: r => some (.val .jnull, r)
        | _ => none
      else if c = 't' then
        match rest with
        | 'r' :: 'u' :: 'e' :: r => some (.val (.jbool true), r)
        | _ => none
      else if c = 'f' then
        match rest with
        | 'a' :: 'l' :: 's' :: 'e' :: r => some (.val (.jbool false), r)
        | _ => none
      else if c = '"' then
        match parseStringBody fuel rest with
        | some (s, r) => some (.val (.jstr (String.mk s)), r)
        | none => none
      else if c = '[' then
        match skipWs rest with
        | ']' :: r => some (.val (.jarr []), r)
        | cs2 =>
          match parseJ fuel .arrElems cs2 with
          | some (.arrElems vs, r) => some (.val (.jarr vs), r)
          | _ => none
      else if c = '{' then
        match skipWs rest with
        | '}' :: r => some (.val (.jobj []), r)
        | cs2 =>
          match parseJ fuel .objElems cs2 with
          | some (.objElems fs, r) => some (.val (.jobj fs), r)
          | _ => none
      else if c = '-' ∨ c.isDigit then
        match parseNumber (c :: rest) with
        | some (ds, r) => some (.val (.jnum (String.mk ds)), r)
        | none => none
      else none
  | fuel + 1, .arrElems, cs =>
    match parseJ fuel .val cs with
    | some (.val v, r) =>
      (match skipWs r with
       | ',' :: r2 =>
         match parseJ fuel .arrElems r2 with
         | some (.arrElems vs, r3) => some (.arrElems (v :: vs), r3)
         | _ => none
       | ']' :: r2 => some (.arrElems [v], r2)
       | _ => none)
    | _ => none
  | fuel + 1, .objElems, cs =>
    match skipWs cs with
    | '"' :: cs1 =>
      match parseStringBody fuel cs1 with
      | some (k, cs2) =>
        (match skipWs cs2 with
         | ':' :: cs3 =>
           match parseJ fuel .val cs3 with
           | some (.val v, cs4) =>
             (match skipWs cs4 with
              | ',' :: cs5 =>
                match parseJ fuel .objElems cs5 with
                | some (.objElems fs, cs6) =>
                  some (.objElems ((String.mk k, v) :: fs), cs6)
                | _ => none
              | '}' :: cs5 => some (.objElems [(String.mk k, v)], cs5)
              | _ => none)
           | _ => none
         | _ => none)
      | none => none
    | _ => none

/-- `JSON.parse`: parse one JSON value and accept only trailing whitespace
after it. -/
def jsonParse (s : String) : Option Json :=
  match parseJ (2 * s.length + 2) .val s.data with
  | some (.val v, rest) => if skipWs rest = [] then some v else none
  | _ => none

/-- One pass of the first replace in the response clean-up: remove every
occurrence of three backticks followed by `json` and an optional newline
(the greedy optional quantifier takes the newline when present). -/
def stripFenceJson : Nat → List Char → List Char
  | 0, cs => cs
  | fuel + 1, cs =>
    match cs with
    | [] => []
    | c :: rest =>
      if ['`', '`', '`', 'j', 's', 'o', 'n'].isPrefixOf cs then
        match cs.drop 7 with
        | '\n' :: r => stripFenceJson fuel r
        | r => stripFenceJson fuel r
      else c :: stripFenceJson fuel rest

/-- The second replace: remove every remaining triple backtick. -/
def stripTicks : Nat → List Char → List Char
  | 0, cs => cs
  | fuel + 1, cs =>
    match cs with
    | [] => []
    | c :: rest =>
      if ['`', '`', '`'].isPrefixOf cs then stripTicks fuel (cs.drop 3)
      else c :: stripTicks fuel rest

/-- `.trim()` on the cleaned text. -/
def trimChars (cs : List Char) : List Char :=
  ((cs.dropWhile (isWsChar ·)).reverse.dropWhile (isWsChar ·)).reverse

/-- The response clean-up in `analyzeBrandFromUrl`: strip `json`-tagged
code fences, strip bare fences, then trim. -/
def cleanResponseText (s : String) : String :=
  String.mk (trimChars (stripTicks s.length (stripFenceJson s.length s.data)))

/-- `BrandStyle` of types.ts. -/
structure BrandStyle where
  brandName : String
  themeDescription : String
  dominantColors : List String
  fontStyle : String
  layoutVibe : String
deriving DecidableEq

/-- Behaviour of the screenshot `fetch`: it either throws (network failure
or the 8-second abort fired by the timeout controller) or yields a response
with an `ok` flag, a blob content type and blob bytes. -/
inductive FetchOutcome where
  | throws : String → FetchOutcome
  | resp : Bool → String → String → FetchOutcome

/-- Behaviour of the `FileReader` used to base64-encode the blob:
`onerror` resolves null, `onloadend` yields `reader.result`. -/
inductive ReaderOutcome where
  | readErr : ReaderOutcome
  | loaded : String → ReaderOutcome

/-- Environment for one visual-capture attempt: the outcome of fetching a
given URL, and the reader behaviour on the returned blob. -/
structure CaptureEnv where
  fetch : String → FetchOutcome
  reader : ReaderOutcome

/-- URL normalisation in `fetchScreenshotBase64`: prefix the scheme when
absent. -/
def targetUrl (url : String) : String :=
  if url.startsWith "http" then url else "https://" ++ url

/-- The thum.io screenshot request URL. -/
def screenshotUrl (url : String) : String :=
  "https://image.thum.io/get/width/1024/crop/800/noanimate/" ++ targetUrl url

/-- `fetchScreenshotBase64`: resolves null/undefined (here `none`) on any
failure — the fetch throwing (including the 8 s abort), a non-ok status, a
non-image content type, a reader error or an empty reader result — and
otherwise resolves `res.split(',')[1]` (which is undefined when the data
URL contains no comma). -/
def fetchScreenshotBase64 (cap : CaptureEnv) (url : String) : Option String :=
  match cap.fetch (screenshotUrl url) with
  | .throws _ => none
  | .resp ok blobType _ =>
    if ok = false then none
    else if blobType.startsWith "image/" = false then none
    else
      match cap.reader with
      | .readErr => none
      | .loaded res =>
        if res = "" then none
        else ((res.splitOn ",").drop 1).head?

/-- JS truthiness of the screenshot result: null, undefined and the empty
string are falsy. -/
def truthy : Option String → Bool
  | none => false
  | some s => s ≠ ""

/-- One part of the analysis request: an inline image or prompt text. -/
inductive InputPart where
  | image : String → String → InputPart
  | text : String → InputPart
deriving DecidableEq

/-- Whether a request part is an inline image payload. -/
def isImagePart : InputPart → Bool
  | .image _ _ => true
  | .text _ => false

/-- The prompt assembled by `analyzeBrandFromUrl`: the site line, then
either the image-analysis instructions (when visual context was acquired)
or the search-based fallback, then the required JSON shape. -/
def buildPrompt (url : String) (hasImage : Bool) : String :=
  "Analyze the brand and visual style of the website: " ++ url ++ ".\n" ++
  (if hasImage then
    "I have provided a screenshot of the website.\n" ++
    "1. ANALYZE the image to determine the dominant color palette (extract hex codes from the image pixels).\n" ++
    "2. OBSERVE the layout structure (hero section, navigation, density).\n" ++
    "3. DETECT the typography style (serif vs sans-serif, weights, mood).\n" ++
    "If the image appears to be a \"loading\" placeholder or \"screenshot failed\" image, IGNORE the image and use Google Search instead.\n"
  else
    "Use Google Search to find information about the brand's logo, colors, and design language.\n") ++
  "If the website is not well-known, infer a suitable style based on the domain name and industry standards.\n" ++
  "Return a VALID JSON object (no markdown, just raw JSON) with the following specific structure:\n" ++
  "\x7b \"brandName\", \"themeDescription\", \"dominantColors\" (5 hex codes), \"fontStyle\", \"layoutVibe\" \x7d"

/-- Behaviour of the analysis-collaborator call: it may fulfill or reject
at some time (in milliseconds), or never settle. -/
inductive GeminiOutcome where
  | resolves : Nat → Option String → GeminiOutcome
  | rejects : Nat → String → GeminiOutcome
  | never : GeminiOutcome

/-- `Promise.race` of the collaborator call against the 40 000 ms timer:
the call's own settlement wins when it happens before the timer fires;
otherwise the timer's rejection wins.  The race only stops the waiting — it
does not alter the underlying call's behaviour. -/
def raceGemini : GeminiOutcome → Except String (Option String)
  | .resolves t txt =>
    if t < 40000 then .ok txt else .error "Gemini API timed out after 40s"
  | .rejects t m =>
    if t < 40000 then .error m else .error "Gemini API timed out after 40s"
  | .never => .error "Gemini API timed out after 40s"

/-- Result of `analyzeBrandFromUrl`: the parts of the dispatched analysis
request, the run outcome, and whether any abort was issued against the
in-flight collaborator call — the code creates no abort controller for that
call (unlike the screenshot fetch, which is genuinely aborted on its own
8 s timeout), so this field is constantly false. -/
structure AnalyzeResult where
  parts : List InputPart
  result : Except String Json
  geminiAborted : Bool

/-- The `inputParts` assembled by `analyzeBrandFromUrl`: the inline image
payload only when the screenshot result is truthy, then the prompt text. -/
def analyzeParts (cap : CaptureEnv) (url : String) : List InputPart :=
  (if truthy (fetchScreenshotBase64 cap url) then
    [InputPart.image "image/png" ((fetchScreenshotBase64 cap url).getD "")]
  else []) ++
  [InputPart.text (buildPrompt url (truthy (fetchScreenshotBase64 cap url)))]

/-- The response handling of `analyzeBrandFromUrl`: race the collaborator
call against the 40 s timer, reject on a falsy response text, clean code
fences, and parse the JSON — returning the parsed value as the style
descriptor, or the distinct parse error. -/
def analyzeOutcome (gem : GeminiOutcome) : Except String Json :=
  match raceGemini gem with
  | .error m => .error m
  | .ok none => .error "Failed to analyze brand."
  | .ok (some text) =>
    if text = "" then .error "Failed to analyze brand."
    else
      match jsonParse (cleanResponseText text) with
      | some j => .ok j
      | none => .error "Failed to parse brand analysis results."

/-- `analyzeBrandFromUrl`: check the credential (`getClient`), attempt the
screenshot, assemble the request parts, and handle the collaborator
response. -/
def analyzeBrandFromUrl (hasApiKey : Bool) (cap : CaptureEnv) (gem : GeminiOutcome)
    (url : String) : AnalyzeResult :=
  if hasApiKey then
    { parts := analyzeParts cap url, result := analyzeOutcome gem, geminiAborted := false }
  else { parts := [], result := .error "API Key not found", geminiAborted := false }

/-- Whether a JSON value is a string. -/
def jsonIsStr : Json → Bool
  | .jstr _ => true
  | _ => false

/-- Whether a JSON value is a string parsing as a hex color. -/
def jsonHexStr : Json → Bool
  | .jstr s => (hexToRgb s).isSome
  | _ => false

/-- First field with the given key in a JSON object's field list. -/
def lookupField (fields : List (String × Json)) (k : String) : Option Json :=
  match fields.find? (fun p => p.1 = k) with
  | some p => some p.2
  | none => none

/-- Modelled from the spec: the requirement that the collaborator's output
be a single JSON object with required fields brandName, themeDescription,
fontStyle, layoutVibe (strings) and dominantColors (a 5-element list of hex
strings).  The source performs no such validation; this definition exists
only to compare the spec's requirement against what the code returns. -/
def specRequiredBrandSchema : Json → Bool
  | .jobj fields =>
    (match lookupField fields "brandName" with
     | some v => jsonIsStr v
     | none => false) &&
    (match lookupField fields "themeDescription" with
     | some v => jsonIsStr v
     | none => false) &&
    (match lookupField fields "fontStyle" with
     | some v => jsonIsStr v
     | none => false) &&
    (match lookupField fields "layoutVibe" with
     | some v => jsonIsStr v
     | none => false) &&
    (match lookupField fields "dominantColors" with
     | some (.jarr cs) => cs.length == 5 && cs.all jsonHexStr
     | _ => false)
  | _ => false

/-- The capture failure modes: the fetch threw (network error or the 8 s
abort), the response status was not ok, or the blob was not image content. -/
def captureFails (cap : CaptureEnv) (url : String) : Prop :=
  match cap.fetch (screenshotUrl url) with
  | .throws _ => True
  | .resp ok blobType _ => ok = false ∨ blobType.startsWith "image/" = false

/-- The collaborator call does not settle within the 40 s budget. -/
def geminiMissesBudget : GeminiOutcome → Prop
  | .resolves t _ => 40000 ≤ t
  | .rejects t _ => 40000 ≤ t
  | .never => True

/-- A capture environment whose fetch always throws (used as a concrete
witness input). -/
def noShotEnv : CaptureEnv :=
  { fetch := fun _ => .throws "network error", reader := .readErr }

/-- A syntactically valid JSON response carrying none of the required
fields. -/
def badSchemaText : String := "\x7b\"foo\": 1\x7d"

/-- The parse of `badSchemaText`. -/
def badSchemaJson : Json := .jobj [("foo", .jnum "1")]

/-! ## Part 3: asset generation and orchestration (App.tsx)

Each generation task's collaborator call is an environment entry holding
the response (or rejection), an identifier seed standing for the
`Date.now()`/`Math.random()` parts of the asset id, and the task's settle
instant.  Settle instants are absolute: the primary task is awaited before
the second wave is dispatched, so second-wave instants are offset by the
primary's. -/

/-- `GeneratedAsset` of types.ts. -/
structure GeneratedAsset where
  id : String
  type : String
  subtype : String
  imageUrl : String
  description : String
deriving DecidableEq

/-- Environment for one generation task: the collaborator's settlement
(rejection message or response parts — `some d` for a part carrying
`inlineData` with data `d`), the asset id seed, and the settle time. -/
structure TaskEnv where
  response : Except String (List (Option String))
  idSeed : String
  time : Nat

/-- The generators' scan of the response parts: the data of the first part
whose `inlineData.data` is truthy, else the initial empty `imageUrl`. -/
def firstImageData : List (Option String) → String
  | [] => ""
  | some d :: rest => if d = "" then firstImageData rest else d
  | none :: rest => firstImageData rest

/-- `generateLogoVariant`: call the image collaborator; throw when the
response carries no truthy image payload, else build the logo asset. -/
def generateLogoVariant (env : TaskEnv) (variant : String) :
    Except String GeneratedAsset :=
  match env.response with
  | .error m => .error m
  | .ok parts =>
    if firstImageData parts = "" then .error "Failed to generate logo image"
    else .ok
      { id := "logo-" ++ env.idSeed,
        type := "logo",
        subtype := variant,
        imageUrl := "data:image/png;base64," ++ firstImageData parts,
        description := variant ++ " logo variant" }

/-- `generateBrandAsset`: the aspect-ratio/brief switch only feeds the
prompt (abstracted into the environment); the response handling mirrors
`generateLogoVariant`, with asset kind `social`, subtype the brand-asset
type and description `<type> Mockup`. -/
def generateBrandAsset (env : TaskEnv) (kind : String) :
    Except String GeneratedAsset :=
  match env.response with
  | .error m => .error m
  | .ok parts =>
    if firstImageData parts = "" then .error ("Failed to generate " ++ kind)
    else .ok
      { id := "asset-" ++ kind ++ "-" ++ env.idSeed,
        type := "social",
        subtype := kind,
        imageUrl := "data:image/png;base64," ++ firstImageData parts,
        description := kind ++ " Mockup" }

/-- `LOGO_VARIANTS` of App.tsx. -/
def LOGO_VARIANTS : List String := ["Minimalist Wordmark", "Abstract Icon", "App Icon"]

/-- `BRAND_ASSETS` of App.tsx. -/
def BRAND_ASSETS : List String := ["Billboard", "Merch", "Poster"]

/-- Environment for one `startGeneration` run: the primary-logo task, one
task per brand-asset type, one task per extra logo variant. -/
structure GenEnv where
  primaryEnv : TaskEnv
  brandEnv : String → TaskEnv
  logoEnv : String → TaskEnv

/-- `AnalysisState` of types.ts (status plus the error message). -/
inductive AnalysisState where
  | idle
  | analyzing
  | generating
  | complete
  | error : String → AnalysisState
deriving DecidableEq

instance {ε α : Type} [DecidableEq ε] [DecidableEq α] : DecidableEq (Except ε α) := fun x y =>
  match x, y with
  | .ok a, .ok b =>
    if h : a = b then isTrue (by rw [h])
    else isFalse (by intro hc; injection hc; contradiction)
  | .error a, .error b =>
    if h : a = b then isTrue (by rw [h])
    else isFalse (by intro hc; injection hc; contradiction)
  | .ok _, .error _ => isFalse (by intro hc; cases hc)
  | .error _, .ok _ => isFalse (by intro hc; cases hc)

/-- One dispatched task: its label, whether it is a second-wave brand-asset
task (whose handler has a catch and logs), its absolute settle instant and
its outcome. -/
structure TaskRun where
  name : String
  brandTask : Bool
  time : Nat
  result : Except String GeneratedAsset
deriving DecidableEq

/-- Whether a settlement is a fulfilment. -/
def exceptOk {ε α : Type} : Except ε α → Bool
  | .ok _ => true
  | .error _ => false

/-- The asset of a fulfilled task. -/
def exceptAsset : Except String GeneratedAsset → Option GeneratedAsset
  | .ok a => some a
  | .error _ => none

/-- The primary task: `LOGO_VARIANTS[0]`, awaited before the second wave. -/
def primaryRun (env : GenEnv) : TaskRun :=
  { name := LOGO_VARIANTS.headD "", brandTask := false, time := env.primaryEnv.time,
    result := generateLogoVariant env.primaryEnv (LOGO_VARIANTS.headD "") }

/-- The second-wave brand-asset tasks, mapped over `BRAND_ASSETS`. -/
def brandRuns (env : GenEnv) : List TaskRun :=
  BRAND_ASSETS.map fun kind =>
    { name := kind, brandTask := true,
      time := env.primaryEnv.time + (env.brandEnv kind).time,
      result := generateBrandAsset (env.brandEnv kind) kind }

/-- The second-wave extra logo tasks, mapped over `LOGO_VARIANTS.slice(1)`. -/
def extraRuns (env : GenEnv) : List TaskRun :=
  (LOGO_VARIANTS.drop 1).map fun variant =>
    { name := variant, brandTask := false,
      time := env.primaryEnv.time + (env.logoEnv variant).time,
      result := generateLogoVariant (env.logoEnv variant) variant }

/-- All second-wave tasks in submission order. -/
def wave2 (env : GenEnv) : List TaskRun :=
  brandRuns env ++ extraRuns env

/-- All dispatched tasks of the run. -/
def allRuns (env : GenEnv) : List TaskRun :=
  primaryRun env :: wave2 env

/-- Number of dispatched tasks that fail. -/
def numFailedTasks (env : GenEnv) : Nat :=
  (allRuns env).countP (fun r => !(exceptOk r.result))

/-- Stable insertion by settle instant (earlier-submitted first among equal
instants). -/
def insertByTime (r : TaskRun) : List TaskRun → List TaskRun
  | [] => [r]
  | x :: xs => if x.time < r.time then x :: insertByTime r xs else r :: x :: xs

/-- Completion order of a task list: sorted by settle instant. -/
def sortByTime (l : List TaskRun) : List TaskRun :=
  l.foldr insertByTime []

/-- Eventual contents of the `assets` state once every task handler has
run (sibling tasks are never cancelled, and appends are not guarded by the
run state): the primary result first — it settles before the second wave is
dispatched — then the second-wave successes in completion order. -/
def finalAssets (env : GenEnv) : List GeneratedAsset :=
  (match (primaryRun env).result with
   | .ok a => [a]
   | .error _ => []) ++
  (sortByTime (wave2 env)).filterMap (fun r => exceptAsset r.result)

/-- The extra-logo promises carry no rejection handler; their rejections,
in completion order. -/
def extraRejections (env : GenEnv) : List (Nat × String) :=
  (sortByTime (extraRuns env)).filterMap fun r =>
    match r.result with
    | .error m => some (r.time, m)
    | .ok _ => none

/-- How `Promise.all` rejects: at the first rejection of an (uncaught)
extra-logo promise — the brand-asset promises never reject, their
rejections being caught by their own handlers. -/
def joinRejection (env : GenEnv) : Option (Nat × String) :=
  (extraRejections env).head?

/-- Latest settle instant among all dispatched tasks: the `Promise.all`
fulfilment instant when no member rejects. -/
def maxSettleTime (env : GenEnv) : Nat :=
  (wave2 env).foldl (fun acc r => max acc r.time) (primaryRun env).time

/-- The instant at which `await Promise.all` resumes. -/
def joinTime (env : GenEnv) : Nat :=
  match joinRejection env with
  | some (t, _) => t
  | none => maxSettleTime env

/-- `addLog` lines a second-wave task contributes on settlement: the
brand-asset handlers log success or failure, the extra-logo handlers log
nothing. -/
def taskLog (r : TaskRun) : List String :=
  if r.brandTask then
    match r.result with
    | .ok _ => ["Generated " ++ r.name ++ " asset."]
    | .error m => ["Error generating " ++ r.name ++ ": " ++ m]
  else []

/-- `console.error` lines a second-wave task contributes on settlement. -/
def taskConsole (r : TaskRun) : List String :=
  if r.brandTask then
    match r.result with
    | .ok _ => []
    | .error _ => ["Failed to generate " ++ r.name]
  else []

/-- Settle instants of every dispatched task. -/
def settleTimes (env : GenEnv) : List Nat :=
  (allRuns env).map (fun r => r.time)

/-- Joint result of `startGeneration` as awaited inside `handleAnalyze`'s
try/catch after a successful extraction. -/
structure GenRunResult where
  finalAssets : List GeneratedAsset
  joinOutcome : Except String Unit
  joinTime : Nat
  finalState : AnalysisState
  uiLog : List String
  consoleLog : List String
deriving DecidableEq

/-- Settlement of the awaited `Promise.all`: rejected by the first escaped
extra-logo rejection, fulfilled otherwise. -/
def joinOutcomeRun (env : GenEnv) : Except String Unit :=
  match joinRejection env with
  | some (_, m) => .error m
  | none => .ok ()

/-- `startGeneration` (as driven by `handleAnalyze`): dispatch and await
the primary task with its own catch, dispatch the brand-asset tasks with
per-task catches and the extra logo tasks without one, await the join, and
set the run state — `complete` after a fulfilled join, `error` via
`handleAnalyze`'s catch when the join rejects. -/
def startGenerationRun (env : GenEnv) : GenRunResult :=
  { finalAssets := finalAssets env,
    joinOutcome := joinOutcomeRun env,
    joinTime := joinTime env,
    finalState :=
      match joinOutcomeRun env with
      | .ok _ => .complete
      | .error m => .error m,
    uiLog :=
      ["Analysis complete. Starting asset generation...",
        "Generating primary logo..."] ++
      (sortByTime (wave2 env)).bind taskLog ++
      (match joinOutcomeRun env with
       | .ok _ => ["All assets generated successfully."]
       | .error m => ["FATAL ERROR: " ++ m]),
    consoleLog :=
      (match (primaryRun env).result with
       | .ok _ => []
       | .error _ => ["Primary logo failed"]) ++
      (sortByTime (wave2 env)).bind taskConsole }

/-- A task environment that fulfills with one image part at instant `t`. -/
def okTask (t : Nat) : TaskEnv :=
  { response := .ok [some "imgdata"], idSeed := "seed", time := t }

/-- A task environment that rejects at instant `t`. -/
def failTask (t : Nat) : TaskEnv :=
  { response := .error "boom", idSeed := "seed", time := t }

/-- A run in which exactly one task fails and it is the second-wave
"Abstract Icon" logo task, rejecting at instant 1 while the brand-asset
tasks settle at instant 50. -/
def extraFailEnv : GenEnv :=
  { primaryEnv := okTask 0,
    brandEnv := fun _ => okTask 50,
    logoEnv := fun v => if v = "Abstract Icon" then failTask 1 else okTask 2 }

/-- A run in which exactly one task fails and it is the second-wave "Merch"
brand-asset task. -/
def oneBrandFailEnv : GenEnv :=
  { primaryEnv := okTask 1,
    brandEnv := fun kind => if kind = "Merch" then failTask 3 else okTask 2,
    logoEnv := fun _ => okTask 4 }

/-- A run in which every task succeeds. -/
def allOkEnv : GenEnv :=
  { primaryEnv := okTask 1,
    brandEnv := fun _ => okTask 2,
    logoEnv := fun _ => okTask 3 }

/-! ## Part 4: the export bundle (handleDownloadZip) -/

/-- The `replace(/\s+/g, '_')` sanitisation: each maximal whitespace run
becomes a single underscore. -/
def sanitizeAux : Nat → List Char → List Char
  | 0, _ => []
  | _ + 1, [] => []
  | fuel + 1, c :: rest =>
    if isWsChar c then '_' :: sanitizeAux fuel (rest.dropWhile (isWsChar ·))
    else c :: sanitizeAux fuel rest

/-- Whitespace-run sanitisation of a string. -/
def sanitize (s : String) : String :=
  String.mk (sanitizeAux s.length s.data)

/-- The style-guide manifest written to `style-guide.json`. -/
structure StyleGuide where
  name : String
  theme : String
  colors : List String
  fonts : String
  layout : String
  generatedAt : String
deriving DecidableEq

/-- A file placed in the archive: the manifest or fetched image bytes. -/
inductive ZipData where
  | guide : StyleGuide → ZipData
  | img : String → ZipData
deriving DecidableEq

/-- Environment for the export: the per-URL fetch outcome (blob bytes, or a
thrown error covering both a failing `fetch` and a failing `blob()` read)
and the manifest timestamp. -/
structure ZipEnv where
  fetchBlob : String → Except String String
  now : String

/-- Result of `handleDownloadZip`: the archive (folder name and files) when
one is assembled, the URLs fetched, the `saveAs` target, and the run-state
transitions performed — the handler contains no `setState` call, so the
last list is constantly empty. -/
structure ZipResult where
  archive : Option (String × List (String × ZipData))
  fetchAttempts : List String
  savedAs : Option String
  setStateCalls : List AnalysisState
deriving DecidableEq

/-- `handleDownloadZip`: return immediately when no style descriptor was
produced or the asset sequence is empty; otherwise write the manifest, then
for each asset attempt to fetch its payload and place it under
`<type>s/<sanitized subtype>.png`, skipping (only) the assets whose fetch
throws, and save the archive named after the brand.  (The source also
bails out if `zip.folder` returned null; JSZip always returns the folder
object there, so that branch is not modelled.) -/
def handleDownloadZip (brandStyle : Option BrandStyle) (assets : List GeneratedAsset)
    (env : ZipEnv) : ZipResult :=
  match brandStyle with
  | none =>
    { archive := none, fetchAttempts := [], savedAs := none, setStateCalls := [] }
  | some bs =>
    if assets.length = 0 then
      { archive := none, fetchAttempts := [], savedAs := none, setStateCalls := [] }
    else
      { archive := some (sanitize bs.brandName ++ "_BrandKit",
          ("style-guide.json", .guide
            { name := bs.brandName, theme := bs.themeDescription,
              colors := bs.dominantColors, fonts := bs.fontStyle,
              layout := bs.layoutVibe, generatedAt := env.now }) ::
          assets.filterMap (fun a =>
            match env.fetchBlob a.imageUrl with
            | .ok blob =>
              some (a.type ++ "s/" ++ sanitize a.subtype ++ ".png", .img blob)
            | .error _ => none)),
        fetchAttempts := assets.map (fun a => a.imageUrl),
        savedAs := some (bs.brandName ++ "_BrandKit.zip"),
        setStateCalls := [] }

/-- A concrete logo asset for witnesses. -/
def assetOne : GeneratedAsset :=
  { id := "id1", type := "logo", subtype := "Minimalist Wordmark",
    imageUrl := "url1", description := "d1" }

/-- A concrete brand asset for witnesses. -/
def assetTwo : GeneratedAsset :=
  { id := "id2", type := "social", subtype := "Merch",
    imageUrl := "url2", description := "d2" }

/-- A concrete export environment whose fetch of `url2` throws. -/
def zipEnvOne : ZipEnv :=
  { fetchBlob := fun u => if u = "url2" then .error "boom" else .ok "blob",
    now := "2026-01-01T00:00:00.000Z" }

/-- A concrete brand style for witnesses. -/
def styleOne : BrandStyle :=
  { brandName := "Neon Flux", themeDescription := "theme",
    dominantColors := ["#09090B"], fontStyle := "font", layoutVibe := "layout" }

/-! ### Lemmas about colorUtils -/

theorem hexDigit?_le_15 {c : Char} {d : Nat} (h : hexDigit? c = some d) : d ≤ 15 := by
  unfold hexDigit? at h
  split_ifs at h <;> simp only [Option.some.injEq] at h <;> omega

theorem hexPair?_le_255 {a b : Char} {n : Nat} (h : hexPair? a b = some n) : n ≤ 255 := by
  unfold hexPair? at h
  cases ha : hexDigit? a with
  | none => rw [ha] at h; cases hb : hexDigit? b <;> rw [hb] at h <;> cases h
  | some x =>
    cases hb : hexDigit? b with
    | none => rw [ha, hb] at h; cases h
    | some y =>
      rw [ha, hb] at h
      cases h
      have h1 := hexDigit?_le_15 ha
      have h2 := hexDigit?_le_15 hb
      omega

theorem hexToRgb_le_255 {s : String} {rgb : Rgb} (h : hexToRgb s = some rgb) :
    rgb.r ≤ 255 ∧ rgb.g ≤ 255 ∧ rgb.b ≤ 255 := by
  unfold hexToRgb at h
  split at h
  · split at h
    · rename_i hr hg hb
      cases h
      exact ⟨hexPair?_le_255 hr, hexPair?_le_255 hg, hexPair?_le_255 hb⟩
    · cases h
  · cases h

theorem srgbChannel_nonneg {v : ℝ} (hv : 0 ≤ v) : 0 ≤ srgbChannel v := by
  unfold srgbChannel
  split_ifs
  · positivity
  · exact Real.rpow_nonneg (div_nonneg (by linarith) (by norm_num)) _

theorem srgbChannel_le_one {v : ℝ} (hv0 : 0 ≤ v) (hv1 : v ≤ 1) : srgbChannel v ≤ 1 := by
  unfold srgbChannel
  split_ifs with h
  · rw [div_le_one (by norm_num)]; linarith
  · refine Real.rpow_le_one (div_nonneg (by linarith) (by norm_num)) ?_ (by norm_num)
    rw [div_le_one (by norm_num)]; linarith

theorem luminance_nonneg {r g b : ℝ} (hr : 0 ≤ r) (hg : 0 ≤ g) (hb : 0 ≤ b) :
    0 ≤ luminance r g b := by
  unfold luminance
  have h1 := srgbChannel_nonneg (v := r / 255) (by positivity)
  have h2 := srgbChannel_nonneg (v := g / 255) (by positivity)
  have h3 := srgbChannel_nonneg (v := b / 255) (by positivity)
  nlinarith

theorem luminance_le_one {r g b : ℝ} (hr0 : 0 ≤ r) (hr : r ≤ 255) (hg0 : 0 ≤ g)
    (hg : g ≤ 255) (hb0 : 0 ≤ b) (hb : b ≤ 255) : luminance r g b ≤ 1 := by
  unfold luminance
  have h1 := srgbChannel_le_one (v := r / 255) (by positivity) (by linarith)
  have h2 := srgbChannel_le_one (v := g / 255) (by positivity) (by linarith)
  have h3 := srgbChannel_le_one (v := b / 255) (by positivity) (by linarith)
  nlinarith

theorem luminance_white : luminance 255 255 255 = 1 := by
  unfold luminance srgbChannel
  norm_num

theorem luminance_black : luminance 0 0 0 = 0 := by
  unfold luminance srgbChannel
  norm_num

theorem contrast_white_eq (rgb : Rgb) (hL : luminance rgb.r rgb.g rgb.b ≤ 1) :
    calculateContrast rgb whiteRgb = 1.05 / (luminance rgb.r rgb.g rgb.b + 0.05) := by
  unfold calculateContrast
  have hw : luminance (whiteRgb.r : Nat) (whiteRgb.g : Nat) (whiteRgb.b : Nat) = 1 := by
    show luminance ((255 : Nat) : ℝ) ((255 : Nat) : ℝ) ((255 : Nat) : ℝ) = 1
    norm_num [luminance_white]
  simp only [hw, max_eq_right hL, min_eq_left hL]
  norm_num

theorem contrast_black_eq (rgb : Rgb) (hL : 0 ≤ luminance rgb.r rgb.g rgb.b) :
    calculateContrast rgb blackRgb = (luminance rgb.r rgb.g rgb.b + 0.05) / 0.05 := by
  unfold calculateContrast
  have hb : luminance (blackRgb.r : Nat) (blackRgb.g : Nat) (blackRgb.b : Nat) = 0 := by
    show luminance ((0 : Nat) : ℝ) ((0 : Nat) : ℝ) ((0 : Nat) : ℝ) = 0
    norm_num [luminance_black]
  simp only [hb, max_eq_left hL, min_eq_right hL]
  norm_num

theorem contrast_white_bounds (rgb : Rgb) (h0 : 0 ≤ luminance rgb.r rgb.g rgb.b)
    (h1 : luminance rgb.r rgb.g rgb.b ≤ 1) :
    1 ≤ calculateContrast rgb whiteRgb ∧ calculateContrast rgb whiteRgb ≤ 21 := by
  rw [contrast_white_eq rgb h1]
  set L := luminance rgb.r rgb.g rgb.b with hL
  have hd : (0 : ℝ) < L + 0.05 := by linarith
  constructor
  · rw [le_div_iff hd]; linarith
  · rw [div_le_iff hd]; linarith

theorem contrast_black_bounds (rgb : Rgb) (h0 : 0 ≤ luminance rgb.r rgb.g rgb.b)
    (h1 : luminance rgb.r rgb.g rgb.b ≤ 1) :
    1 ≤ calculateContrast rgb blackRgb ∧ calculateContrast rgb blackRgb ≤ 21 := by
  rw [contrast_black_eq rgb h0]
  constructor
  · rw [le_div_iff (by norm_num : (0:ℝ) < 0.05)]; linarith
  · rw [div_le_iff (by norm_num : (0:ℝ) < 0.05)]; linarith

theorem round2_bounds {x lo hi : ℝ} (hlo : lo ≤ x) (hhi : x ≤ hi) :
    lo - 0.005 ≤ round2 x ∧ round2 x ≤ hi + 0.005 := by
  unfold round2
  have h := abs_sub_round (x * 100)
  rw [abs_le] at h
  constructor
  · rw [le_div_iff (by norm_num : (0:ℝ) < 100)]; linarith
  · rw [div_le_iff (by norm_num : (0:ℝ) < 100)]; linarith

theorem round2_int_bounds (lo hi : ℤ) {x : ℝ} (hlo : (lo : ℝ) ≤ x) (hhi : x ≤ (hi : ℝ)) :
    (lo : ℝ) ≤ round2 x ∧ round2 x ≤ (hi : ℝ) := by
  unfold round2
  have hlow : (lo * 100 : ℤ) ≤ round (x * 100) := by
    rw [round_eq, Int.le_floor]
    push_cast
    linarith
  have hhigh : round (x * 100) ≤ (hi * 100 : ℤ) := by
    rw [round_eq, Int.floor_le_iff]
    push_cast
    linarith
  constructor
  · rw [le_div_iff (by norm_num : (0:ℝ) < 100)]
    calc (lo : ℝ) * 100 = ((lo * 100 : ℤ) : ℝ) := by push_cast; ring
    _ ≤ (round (x * 100) : ℝ) := by exact_mod_cast hlow
  · rw [div_le_iff (by norm_num : (0:ℝ) < 100)]
    calc (round (x * 100) : ℝ) ≤ ((hi * 100 : ℤ) : ℝ) := by exact_mod_cast hhigh
    _ = (hi : ℝ) * 100 := by push_cast; ring

theorem luminance_rgb_bounds (rgb : Rgb) (h : rgb.r ≤ 255 ∧ rgb.g ≤ 255 ∧ rgb.b ≤ 255) :
    0 ≤ luminance rgb.r rgb.g rgb.b ∧ luminance rgb.r rgb.g rgb.b ≤ 1 := by
  obtain ⟨hr, hg, hb⟩ := h
  refine ⟨luminance_nonneg (by positivity) (by positivity) (by positivity), ?_⟩
  exact luminance_le_one (by positivity) (by exact_mod_cast hr) (by positivity)
    (by exact_mod_cast hg) (by positivity) (by exact_mod_cast hb)

theorem analyzeColor_some {s : String} {rgb : Rgb} (h : hexToRgb s = some rgb) :
    analyzeColor s =
      { hex := s,
        contrastWhite := round2 (calculateContrast rgb whiteRgb),
        contrastBlack := round2 (calculateContrast rgb blackRgb),
        accessibility :=
          if 7 ≤ round2 (calculateContrast rgb whiteRgb) ∨
             7 ≤ round2 (calculateContrast rgb blackRgb) then "AAA"
          else if 4.5 ≤ round2 (calculateContrast rgb whiteRgb) ∨
                  4.5 ≤ round2 (calculateContrast rgb blackRgb) then "AA"
          else "Fail" } := by
  unfold analyzeColor
  rw [h]

/-- C6: `analyzeColor` is total: every string input yields a `ColorMetrics`
with `contrastWhite` and `contrastBlack` in `[0, 21]`, and every input that
does not parse as a 6-hex-digit color (case-insensitive, optional leading
`#`) yields `{hex := input, contrastWhite := 0, contrastBlack := 0,
accessibility := "Invalid"}`. -/
theorem analyzeColor_total (s : String) :
    (0 ≤ (analyzeColor s).contrastWhite ∧ (analyzeColor s).contrastWhite ≤ 21) ∧
    (0 ≤ (analyzeColor s).contrastBlack ∧ (analyzeColor s).contrastBlack ≤ 21) ∧
    (hexToRgb s = none →
      analyzeColor s =
        { hex := s, contrastWhite := 0, contrastBlack := 0, accessibility := "Invalid" }) := by
  cases h : hexToRgb s with
  | none =>
    have : analyzeColor s =
        { hex := s, contrastWhite := 0, contrastBlack := 0, accessibility := "Invalid" } := by
      unfold analyzeColor
      rw [h]
    rw [this]
    norm_num
  | some rgb =>
    have hb := hexToRgb_le_255 h
    have hL := luminance_rgb_bounds rgb hb
    have hw := contrast_white_bounds rgb hL.1 hL.2
    have hbk := contrast_black_bounds rgb hL.1 hL.2
    have hw2 := round2_int_bounds 1 21
      (by push_cast; exact hw.1) (by push_cast; exact hw.2)
    have hb2 := round2_int_bounds 1 21
      (by push_cast; exact hbk.1) (by push_cast; exact hbk.2)
    push_cast at hw2 hb2
    simp only [analyzeColor_some h]
    refine ⟨⟨by linarith [hw2.1], hw2.2⟩, ⟨by linarith [hb2.1], hb2.2⟩, ?_⟩
    intro hnone
    exact Option.noConfusion hnone

/-- Witness for C6 at the non-parsing input `"zzz"`. -/
theorem analyzeColor_total_witness :
    hexToRgb "zzz" = none ∧
    analyzeColor "zzz" =
      { hex := "zzz", contrastWhite := 0, contrastBlack := 0, accessibility := "Invalid" } :=
  ⟨by decide, (analyzeColor_total "zzz").2.2 (by decide)⟩

/-- C7: for every input that parses as a 6-hex-digit color, `analyzeColor`
rounds both contrast ratios (computed against pure white and pure black) to
two decimal places before classification, and classifies `"AAA"` when either
rounded contrast is ≥ 7, else `"AA"` when either is ≥ 4.5, else `"Fail"`. -/
theorem analyzeColor_classification (s : String) (rgb : Rgb) (h : hexToRgb s = some rgb) :
    (analyzeColor s).contrastWhite = round2 (calculateContrast rgb whiteRgb) ∧
    (analyzeColor s).contrastBlack = round2 (calculateContrast rgb blackRgb) ∧
    (analyzeColor s).accessibility =
      (if 7 ≤ round2 (calculateContrast rgb whiteRgb) ∨
          7 ≤ round2 (calculateContrast rgb blackRgb) then "AAA"
       else if 4.5 ≤ round2 (calculateContrast rgb whiteRgb) ∨
               4.5 ≤ round2 (calculateContrast rgb blackRgb) then "AA"
       else "Fail") := by
  rw [analyzeColor_some h]
  exact ⟨rfl, rfl, rfl⟩

/-- Witness for C7 at the input `"000000"`. -/
theorem analyzeColor_classification_witness :
    hexToRgb "000000" = some ⟨0, 0, 0⟩ ∧
    ((analyzeColor "000000").contrastWhite =
        round2 (calculateContrast ⟨0, 0, 0⟩ whiteRgb) ∧
      (analyzeColor "000000").contrastBlack =
        round2 (calculateContrast ⟨0, 0, 0⟩ blackRgb) ∧
      (analyzeColor "000000").accessibility =
        (if 7 ≤ round2 (calculateContrast ⟨0, 0, 0⟩ whiteRgb) ∨
            7 ≤ round2 (calculateContrast ⟨0, 0, 0⟩ blackRgb) then "AAA"
         else if 4.5 ≤ round2 (calculateContrast ⟨0, 0, 0⟩ whiteRgb) ∨
                 4.5 ≤ round2 (calculateContrast ⟨0, 0, 0⟩ blackRgb) then "AA"
         else "Fail")) :=
  ⟨by decide, analyzeColor_classification "000000" ⟨0, 0, 0⟩ (by decide)⟩

/-- C9: for every input that parses as a valid 6-hex-digit color, the product
of the two unrounded contrast ratios is exactly 21, every valid color
classifies as `"AA"` or `"AAA"`, and `analyzeColor` never returns
accessibility `"Fail"`. -/
theorem analyzeColor_never_fails (s : String) (rgb : Rgb) (h : hexToRgb s = some rgb) :
    calculateContrast rgb whiteRgb * calculateContrast rgb blackRgb = 21 ∧
    ((analyzeColor s).accessibility = "AA" ∨ (analyzeColor s).accessibility = "AAA") ∧
    (analyzeColor s).accessibility ≠ "Fail" := by
  have hb := hexToRgb_le_255 h
  have hL := luminance_rgb_bounds rgb hb
  have hd : (0 : ℝ) < luminance rgb.r rgb.g rgb.b + 0.05 := by linarith [hL.1]
  have hprod : calculateContrast rgb whiteRgb * calculateContrast rgb blackRgb = 21 := by
    rw [contrast_white_eq rgb hL.2, contrast_black_eq rgb hL.1]
    field_simp
    ring
  have hcw := contrast_white_bounds rgb hL.1 hL.2
  have hcb := contrast_black_bounds rgb hL.1 hL.2
  have hge : ∀ x : ℝ, x - 0.005 ≤ round2 x := fun x =>
    (round2_bounds (le_refl x) (le_refl x)).1
  have hkey : 4.5 ≤ round2 (calculateContrast rgb whiteRgb) ∨
      4.5 ≤ round2 (calculateContrast rgb blackRgb) := by
    by_cases hc : 4.58 ≤ calculateContrast rgb blackRgb
    · right
      linarith [hge (calculateContrast rgb blackRgb)]
    · left
      push_neg at hc
      have hcwb : 4.58 < calculateContrast rgb whiteRgb := by
        by_contra hcon
        push_neg at hcon
        have h1 : calculateContrast rgb whiteRgb * calculateContrast rgb blackRgb ≤
            4.58 * calculateContrast rgb blackRgb :=
          mul_le_mul_of_nonneg_right hcon (by linarith [hcb.1])
        have h2 : (4.58 : ℝ) * calculateContrast rgb blackRgb < 4.58 * 4.58 := by
          nlinarith [hcb.1]
        linarith [hprod]
      linarith [hge (calculateContrast rgb whiteRgb)]
  refine ⟨hprod, ?_, ?_⟩
  · rw [analyzeColor_some h]
    by_cases h7 : 7 ≤ round2 (calculateContrast rgb whiteRgb) ∨
        7 ≤ round2 (calculateContrast rgb blackRgb)
    · rw [if_pos h7]
      exact Or.inr rfl
    · rw [if_neg h7, if_pos hkey]
      exact Or.inl rfl
  · rw [analyzeColor_some h]
    by_cases h7 : 7 ≤ round2 (calculateContrast rgb whiteRgb) ∨
        7 ≤ round2 (calculateContrast rgb blackRgb)
    · rw [if_pos h7]
      exact (show ("AAA" : String) ≠ "Fail" by decide)
    · rw [if_neg h7, if_pos hkey]
      exact (show ("AA" : String) ≠ "Fail" by decide)

/-- Witness for C9 at the input `"000000"`. -/
theorem analyzeColor_never_fails_witness :
    hexToRgb "000000" = some ⟨0, 0, 0⟩ ∧
    (calculateContrast ⟨0, 0, 0⟩ whiteRgb * calculateContrast ⟨0, 0, 0⟩ blackRgb = 21 ∧
      ((analyzeColor "000000").accessibility = "AA" ∨
        (analyzeColor "000000").accessibility = "AAA") ∧
      (analyzeColor "000000").accessibility ≠ "Fail") :=
  ⟨by decide, analyzeColor_never_fails "000000" ⟨0, 0, 0⟩ (by decide)⟩

/-! ### Lemmas about the service module -/

theorem captureFails_none {cap : CaptureEnv} {url : String} (h : captureFails cap url) :
    fetchScreenshotBase64 cap url = none := by
  unfold captureFails at h
  unfold fetchScreenshotBase64
  cases hc : cap.fetch (screenshotUrl url) with
  | throws m => rfl
  | resp ok bt blob =>
    rw [hc] at h
    rcases h with h | h <;> simp [h]

theorem analyzeBrandFromUrl_key (cap : CaptureEnv) (gem : GeminiOutcome) (url : String) :
    analyzeBrandFromUrl true cap gem url =
      { parts := analyzeParts cap url, result := analyzeOutcome gem,
        geminiAborted := false } := rfl

theorem raceGemini_resolves {t : Nat} {txt : Option String} (ht : t < 40000) :
    raceGemini (.resolves t txt) = .ok txt := by
  unfold raceGemini
  exact if_pos ht

theorem raceGemini_timeout {g : GeminiOutcome} (h : geminiMissesBudget g) :
    raceGemini g = .error "Gemini API timed out after 40s" := by
  cases g with
  | resolves u txt =>
    unfold geminiMissesBudget at h
    unfold raceGemini
    exact if_neg (by omega)
  | rejects u m =>
    unfold geminiMissesBudget at h
    unfold raceGemini
    exact if_neg (by omega)
  | never => rfl

theorem analyzeOutcome_resolves_parse {t : Nat} {txt : String} (ht : t < 40000)
    (htxt : txt ≠ "") :
    analyzeOutcome (.resolves t (some txt)) =
      (match jsonParse (cleanResponseText txt) with
       | some j => .ok j
       | none => .error "Failed to parse brand analysis results.") := by
  unfold analyzeOutcome
  rw [raceGemini_resolves ht]
  simp only [if_neg htxt]

/-- C5: when every visual-capture attempt fails (timeout or network error
— the fetch throws —, non-2xx status, or non-image content type), the
screenshot stage resolves null, the downstream analysis request carries no
image payload, and the run still returns a style descriptor whenever the
analysis collaborator itself succeeds in budget with parseable JSON. -/
theorem capture_failure_isolated (cap : CaptureEnv) (url : String) (gem : GeminiOutcome)
    (t : Nat) (txt : String) (j : Json)
    (hfail : captureFails cap url)
    (hg : gem = .resolves t (some txt)) (ht : t < 40000) (htxt : txt ≠ "")
    (hparse : jsonParse (cleanResponseText txt) = some j) :
    fetchScreenshotBase64 cap url = none ∧
    (∀ p ∈ (analyzeBrandFromUrl true cap gem url).parts, isImagePart p = false) ∧
    (analyzeBrandFromUrl true cap gem url).result = .ok j := by
  have hshot := captureFails_none hfail
  refine ⟨hshot, ?_, ?_⟩
  · intro p hp
    simp only [analyzeBrandFromUrl_key, analyzeParts, hshot] at hp
    simp only [truthy, Bool.false_eq_true, if_false, List.nil_append,
      List.mem_singleton] at hp
    subst hp
    rfl
  · subst hg
    simp only [analyzeBrandFromUrl_key]
    rw [analyzeOutcome_resolves_parse ht htxt, hparse]

/-- Witness for C5: the fetch always throws, the collaborator resolves at
t = 0 with an empty JSON object. -/
theorem capture_failure_isolated_witness :
    captureFails noShotEnv "example.com" ∧
    jsonParse (cleanResponseText "\x7b\x7d") = some (.jobj []) ∧
    (fetchScreenshotBase64 noShotEnv "example.com" = none ∧
      (∀ p ∈ (analyzeBrandFromUrl true noShotEnv
          (.resolves 0 (some "\x7b\x7d")) "example.com").parts,
        isImagePart p = false) ∧
      (analyzeBrandFromUrl true noShotEnv
          (.resolves 0 (some "\x7b\x7d")) "example.com").result = .ok (.jobj [])) :=
  ⟨True.intro, rfl,
    capture_failure_isolated noShotEnv "example.com" _ 0 "\x7b\x7d" (.jobj [])
      True.intro rfl (by decide) (by decide) rfl⟩

/-- C4: if the analysis collaborator does not settle within the 40 s
budget the run fails with the timeout-specific error; that error is
distinguishable from the "malformed result" parse error raised when the
collaborator resolves in budget with text that is not valid JSON after
code-fence stripping; and no abort is ever issued against the in-flight
collaborator call. -/
theorem timeout_vs_parse_error (cap : CaptureEnv) (url : String)
    (g1 g2 : GeminiOutcome) (t : Nat) (txt : String)
    (h1 : geminiMissesBudget g1)
    (hg2 : g2 = .resolves t (some txt)) (ht : t < 40000) (htxt : txt ≠ "")
    (hparse : jsonParse (cleanResponseText txt) = none) :
    (analyzeBrandFromUrl true cap g1 url).result =
      .error "Gemini API timed out after 40s" ∧
    (analyzeBrandFromUrl true cap g2 url).result =
      .error "Failed to parse brand analysis results." ∧
    (analyzeBrandFromUrl true cap g1 url).geminiAborted = false ∧
    "Gemini API timed out after 40s" ≠ "Failed to parse brand analysis results." := by
  refine ⟨?_, ?_, rfl, by decide⟩
  · simp only [analyzeBrandFromUrl_key]
    unfold analyzeOutcome
    rw [raceGemini_timeout h1]
  · subst hg2
    simp only [analyzeBrandFromUrl_key]
    rw [analyzeOutcome_resolves_parse ht htxt, hparse]

/-- Witness for C4: a collaborator that never settles next to one that
resolves at t = 0 with unparseable text. -/
theorem timeout_vs_parse_error_witness :
    geminiMissesBudget .never ∧
    jsonParse (cleanResponseText "not json") = none ∧
    ((analyzeBrandFromUrl true noShotEnv .never "example.com").result =
        .error "Gemini API timed out after 40s" ∧
      (analyzeBrandFromUrl true noShotEnv
          (.resolves 0 (some "not json")) "example.com").result =
        .error "Failed to parse brand analysis results." ∧
      (analyzeBrandFromUrl true noShotEnv .never "example.com").geminiAborted = false ∧
      "Gemini API timed out after 40s" ≠ "Failed to parse brand analysis results.") :=
  ⟨True.intro, rfl,
    timeout_vs_parse_error noShotEnv "example.com" .never
      (.resolves 0 (some "not json")) 0 "not json"
      True.intro rfl (by decide) (by decide) rfl⟩

/-- C3 counterexample: with the capture failing and the analysis
collaborator resolving promptly with valid JSON that has none of the
required fields, `analyzeBrandFromUrl` returns that value as the style
descriptor instead of failing the run — the required schema is not
enforced. -/
theorem schema_not_validated_cex :
    (analyzeBrandFromUrl true noShotEnv
        (.resolves 0 (some badSchemaText)) "example.com").result = .ok badSchemaJson ∧
    specRequiredBrandSchema badSchemaJson = false :=
  ⟨rfl, rfl⟩

/-- C3 (amended): `extract` requires only that the response text, after
code-fence stripping, parse as JSON.  A non-parsing response fails the run
with the distinct parse error; a parsing response is returned as the style
descriptor as-is, with no validation of the required schema. -/
theorem extract_parse_only_validation (cap : CaptureEnv) (url : String)
    (gem : GeminiOutcome) (t : Nat) (txt : String)
    (hg : gem = .resolves t (some txt)) (ht : t < 40000) (htxt : txt ≠ "") :
    (∀ j, jsonParse (cleanResponseText txt) = some j →
      (analyzeBrandFromUrl true cap gem url).result = .ok j) ∧
    (jsonParse (cleanResponseText txt) = none →
      (analyzeBrandFromUrl true cap gem url).result =
        .error "Failed to parse brand analysis results.") := by
  subst hg
  constructor
  · intro j hparse
    simp only [analyzeBrandFromUrl_key]
    rw [analyzeOutcome_resolves_parse ht htxt, hparse]
  · intro hparse
    simp only [analyzeBrandFromUrl_key]
    rw [analyzeOutcome_resolves_parse ht htxt, hparse]

/-- Witness for the amended C3 at the schema-violating response. -/
theorem extract_parse_only_validation_witness :
    badSchemaText ≠ "" ∧
    jsonParse (cleanResponseText badSchemaText) = some badSchemaJson ∧
    (analyzeBrandFromUrl true noShotEnv
        (.resolves 0 (some badSchemaText)) "example.com").result = .ok badSchemaJson :=
  ⟨by decide, rfl,
    (extract_parse_only_validation noShotEnv "example.com" _ 0 badSchemaText
      rfl (by decide) (by decide)).1 badSchemaJson rfl⟩

/-! ### Lemmas about the orchestration -/

theorem insertByTime_perm (r : TaskRun) (l : List TaskRun) :
    (insertByTime r l).Perm (r :: l) := by
  induction l with
  | nil => exact List.Perm.refl _
  | cons x xs ih =>
    unfold insertByTime
    split_ifs with h
    · exact (ih.cons x).trans (List.Perm.swap r x xs)
    · exact List.Perm.refl _

theorem sortByTime_perm (l : List TaskRun) : (sortByTime l).Perm l := by
  induction l with
  | nil => exact List.Perm.refl _
  | cons x xs ih =>
    exact (insertByTime_perm x (sortByTime xs)).trans (ih.cons x)

theorem length_filterMap_exceptAsset (l : List TaskRun) :
    (l.filterMap (fun r => exceptAsset r.result)).length =
      l.countP (fun r => exceptOk r.result) := by
  induction l with
  | nil => rfl
  | cons x xs ih =>
    simp only [List.filterMap_cons, List.countP_cons]
    cases hx : x.result with
    | ok a =>
      rw [show exceptAsset (Except.ok a) = some a from rfl,
        show exceptOk (Except.ok a) = true from rfl]
      simp [ih]
    | error m =>
      rw [show exceptAsset (Except.error m : Except String GeneratedAsset) = none from rfl,
        show exceptOk (Except.error m : Except String GeneratedAsset) = false from rfl]
      simp [ih]

theorem countP_ok_add_fail (l : List TaskRun) :
    l.countP (fun r => exceptOk r.result) +
      l.countP (fun r => !(exceptOk r.result)) = l.length := by
  induction l with
  | nil => rfl
  | cons x xs ih =>
    rw [List.countP_cons, List.countP_cons]
    cases h : exceptOk x.result <;> simp [h] <;> omega

theorem foldl_max_ge (l : List TaskRun) (b : Nat) :
    b ≤ l.foldl (fun acc r => max acc r.time) b ∧
    ∀ r ∈ l, r.time ≤ l.foldl (fun acc r => max acc r.time) b := by
  induction l generalizing b with
  | nil => exact ⟨le_refl b, by intro r hr; cases hr⟩
  | cons x xs ih =>
    rw [List.foldl_cons]
    refine ⟨?_, ?_⟩
    · calc b ≤ max b x.time := le_max_left _ _
        _ ≤ _ := (ih (max b x.time)).1
    · intro r hr
      rcases List.mem_cons.mp hr with h | h
      · subst h
        calc r.time ≤ max b r.time := le_max_right _ _
          _ ≤ _ := (ih (max b r.time)).1
      · exact (ih (max b x.time)).2 r h

theorem extraRejections_nil {env : GenEnv}
    (h : ∀ r ∈ extraRuns env, exceptOk r.result = true) :
    extraRejections env = [] := by
  unfold extraRejections
  rw [List.filterMap_eq_nil]
  intro r hr
  have hmem : r ∈ extraRuns env := ((sortByTime_perm (extraRuns env)).mem_iff).mp hr
  have hok := h r hmem
  cases hres : r.result with
  | ok a => rfl
  | error m =>
    rw [hres] at hok
    exact absurd hok (by simp [exceptOk])

theorem joinRejection_none {env : GenEnv}
    (h : ∀ r ∈ extraRuns env, exceptOk r.result = true) :
    joinRejection env = none := by
  unfold joinRejection
  rw [extraRejections_nil h]
  rfl

theorem joinOutcomeRun_ok {env : GenEnv}
    (h : ∀ r ∈ extraRuns env, exceptOk r.result = true) :
    joinOutcomeRun env = .ok () := by
  unfold joinOutcomeRun
  rw [joinRejection_none h]

/-- C2 (amended): whenever every second-wave extra-logo task succeeds, the
orchestrator's operation is a genuine full join — it settles only once
every dispatched task has settled — and the run state then transitions to
`complete` regardless of how many primary or brand-asset tasks failed.
(When an extra-logo task fails, the join instead rejects at that first
failure and the run ends in the error state.) -/
theorem generation_full_join (env : GenEnv)
    (hextras : ∀ r ∈ extraRuns env, exceptOk r.result = true) :
    (startGenerationRun env).joinOutcome = .ok () ∧
    (startGenerationRun env).finalState = .complete ∧
    ∀ t ∈ settleTimes env, t ≤ (startGenerationRun env).joinTime := by
  have hok := joinOutcomeRun_ok hextras
  refine ⟨hok, ?_, ?_⟩
  · show (match joinOutcomeRun env with
      | .ok _ => AnalysisState.complete
      | .error m => .error m) = .complete
    rw [hok]
  · intro t ht
    have hjt : (startGenerationRun env).joinTime = maxSettleTime env := by
      show joinTime env = maxSettleTime env
      unfold joinTime
      rw [joinRejection_none hextras]
    rw [hjt]
    rcases List.mem_map.mp ht with ⟨r, hr, rfl⟩
    rcases List.mem_cons.mp hr with h | h
    · subst h
      exact (foldl_max_ge (wave2 env) (primaryRun env).time).1
    · exact (foldl_max_ge (wave2 env) (primaryRun env).time).2 r h

/-- Witness for the amended C2 at a run in which every task succeeds. -/
theorem generation_full_join_witness :
    (∀ r ∈ extraRuns allOkEnv, exceptOk r.result = true) ∧
    ((startGenerationRun allOkEnv).joinOutcome = .ok () ∧
      (startGenerationRun allOkEnv).finalState = .complete ∧
      ∀ t ∈ settleTimes allOkEnv, t ≤ (startGenerationRun allOkEnv).joinTime) :=
  ⟨by decide, generation_full_join allOkEnv (by decide)⟩

/-- C2 counterexample: with the "Abstract Icon" extra-logo task rejecting
at instant 1 while the brand-asset tasks settle at instant 50, the
orchestrator's operation settles at instant 1 — before its siblings have
settled — and the run state becomes the error state, not `complete`, even
though only one task failed. -/
theorem join_short_circuits_cex :
    numFailedTasks extraFailEnv = 1 ∧
    (startGenerationRun extraFailEnv).joinTime = 1 ∧
    50 ∈ settleTimes extraFailEnv ∧
    (startGenerationRun extraFailEnv).finalState = .error "boom" ∧
    (startGenerationRun extraFailEnv).finalState ≠ .complete := by decide

/-- C1 (amended): in a run that dispatches the six generation tasks, if
exactly one task fails and the failing task is the primary task or a
second-wave brand-asset task (equivalently: every extra-logo task
succeeds), then the failure is caught and logged (on the console for the
primary task, in the log sink for a brand-asset task), contributes nothing
to the asset sequence, cancels no sibling task (every successful task's
asset reaches the final sequence), the final asset sequence has exactly
five entries, and the run reaches `complete`.  (If the one failing task is
an extra-logo task, the asset count still drops by one but the run instead
reaches the error state.) -/
theorem one_failure_isolated (env : GenEnv)
    (hextras : ∀ r ∈ extraRuns env, exceptOk r.result = true)
    (hone : numFailedTasks env = 1) :
    (allRuns env).length = 6 ∧
    (startGenerationRun env).finalState = .complete ∧
    (startGenerationRun env).finalAssets.length = 5 ∧
    (∀ r ∈ allRuns env, ∀ a, r.result = .ok a →
      a ∈ (startGenerationRun env).finalAssets) ∧
    (∀ m, (primaryRun env).result = .error m →
      "Primary logo failed" ∈ (startGenerationRun env).consoleLog) ∧
    (∀ r ∈ brandRuns env, ∀ m, r.result = .error m →
      ("Error generating " ++ r.name ++ ": " ++ m) ∈ (startGenerationRun env).uiLog) := by
  have hlen6 : (allRuns env).length = 6 := by
    simp [allRuns, wave2, brandRuns, extraRuns, BRAND_ASSETS, LOGO_VARIANTS]
  have hw2len : (wave2 env).length = 5 := by
    simp [wave2, brandRuns, extraRuns, BRAND_ASSETS, LOGO_VARIANTS]
  have hcnt := countP_ok_add_fail (wave2 env)
  have hassets : (startGenerationRun env).finalAssets =
      (match (primaryRun env).result with
       | .ok a => [a]
       | .error _ => []) ++
      (sortByTime (wave2 env)).filterMap (fun r => exceptAsset r.result) := rfl
  have hlenB : ((sortByTime (wave2 env)).filterMap (fun r => exceptAsset r.result)).length =
      (wave2 env).countP (fun r => exceptOk r.result) := by
    rw [List.Perm.length_eq
      (List.Perm.filterMap (fun r => exceptAsset r.result) (sortByTime_perm (wave2 env)))]
    exact length_filterMap_exceptAsset _
  have hone' : (wave2 env).countP (fun r => !(exceptOk r.result)) +
      (if exceptOk (primaryRun env).result then 0 else 1) = 1 := by
    have h := hone
    unfold numFailedTasks allRuns at h
    rw [List.countP_cons] at h
    cases hp : exceptOk (primaryRun env).result <;> rw [hp] at h <;> simpa using h
  refine ⟨hlen6, ?_, ?_, ?_, ?_, ?_⟩
  · show (match joinOutcomeRun env with
      | .ok _ => AnalysisState.complete
      | .error m => .error m) = .complete
    rw [joinOutcomeRun_ok hextras]
  · rw [hassets, List.length_append, hlenB]
    cases hp : (primaryRun env).result with
    | ok a =>
      have hp' : exceptOk (primaryRun env).result = true := by rw [hp]; rfl
      rw [hp'] at hone'
      simp at hone'
      show [a].length + (wave2 env).countP (fun r => exceptOk r.result) = 5
      simp only [List.length_singleton]
      omega
    | error m =>
      have hp' : exceptOk (primaryRun env).result = false := by rw [hp]; rfl
      rw [hp'] at hone'
      simp at hone'
      have hall : (wave2 env).countP (fun r => exceptOk r.result) = (wave2 env).length := by
        rw [List.countP_eq_length]
        intro r hr
        exact hone' r hr
      show ([] : List GeneratedAsset).length + (wave2 env).countP (fun r => exceptOk r.result) = 5
      simp only [List.length_nil]
      omega
  · intro r hr a ha
    rw [hassets]
    rcases List.mem_cons.mp hr with h | h
    · subst h
      rw [ha]
      exact List.mem_append_left _ (List.mem_singleton_self a)
    · refine List.mem_append_right _ ?_
      rw [List.mem_filterMap]
      refine ⟨r, ((sortByTime_perm (wave2 env)).mem_iff).mpr h, ?_⟩
      rw [ha]
      rfl
  · intro m hm
    show "Primary logo failed" ∈
      (match (primaryRun env).result with
       | .ok _ => []
       | .error _ => ["Primary logo failed"]) ++
      (sortByTime (wave2 env)).bind taskConsole
    rw [hm]
    exact List.mem_append_left _ (List.mem_singleton_self _)
  · intro r hr m hm
    have hbt : r.brandTask = true := by
      unfold brandRuns at hr
      rcases List.mem_map.mp hr with ⟨kind, _hk, rfl⟩
      rfl
    have hrw : r ∈ wave2 env := by
      unfold wave2
      exact List.mem_append_left _ hr
    have hrs : r ∈ sortByTime (wave2 env) :=
      ((sortByTime_perm (wave2 env)).mem_iff).mpr hrw
    show ("Error generating " ++ r.name ++ ": " ++ m) ∈
      ["Analysis complete. Starting asset generation...",
        "Generating primary logo..."] ++
      ((sortByTime (wave2 env)).bind taskLog ++
        (match joinOutcomeRun env with
         | .ok _ => ["All assets generated successfully."]
         | .error m => ["FATAL ERROR: " ++ m]))
    refine List.mem_append_right _ (List.mem_append_left _ ?_)
    rw [List.mem_bind]
    refine ⟨r, hrs, ?_⟩
    simp [taskLog, hbt, hm]

/-- Witness for the amended C1: the second-wave "Merch" brand-asset task
fails and every other task succeeds. -/
theorem one_failure_isolated_witness :
    (∀ r ∈ extraRuns oneBrandFailEnv, exceptOk r.result = true) ∧
    numFailedTasks oneBrandFailEnv = 1 ∧
    ((allRuns oneBrandFailEnv).length = 6 ∧
      (startGenerationRun oneBrandFailEnv).finalState = .complete ∧
      (startGenerationRun oneBrandFailEnv).finalAssets.length = 5 ∧
      (∀ r ∈ allRuns oneBrandFailEnv, ∀ a, r.result = .ok a →
        a ∈ (startGenerationRun oneBrandFailEnv).finalAssets) ∧
      (∀ m, (primaryRun oneBrandFailEnv).result = .error m →
        "Primary logo failed" ∈ (startGenerationRun oneBrandFailEnv).consoleLog) ∧
      (∀ r ∈ brandRuns oneBrandFailEnv, ∀ m, r.result = .error m →
        ("Error generating " ++ r.name ++ ": " ++ m) ∈
          (startGenerationRun oneBrandFailEnv).uiLog)) :=
  ⟨by decide, by decide, one_failure_isolated oneBrandFailEnv (by decide) (by decide)⟩

/-- C1 counterexample: with exactly one failing task — the second-wave
"Abstract Icon" extra-logo task — the siblings still settle and the final
asset sequence still has five entries, but the run ends in the error
state, not `complete`: the extra-logo promises carry no rejection handler,
so the rejection escapes through `Promise.all` to `handleAnalyze`'s catch. -/
theorem one_failure_not_isolated_cex :
    numFailedTasks extraFailEnv = 1 ∧
    (startGenerationRun extraFailEnv).finalAssets.length = 5 ∧
    (startGenerationRun extraFailEnv).finalState = .error "boom" ∧
    (startGenerationRun extraFailEnv).finalState ≠ .complete := by decide

/-! ### Lemmas about the export bundle -/

theorem countP_lt_length {α : Type} (p : α → Bool) {l : List α} {a : α}
    (ha : a ∈ l) (hpa : p a = false) : l.countP p < l.length := by
  induction l with
  | nil => cases ha
  | cons x xs ih =>
    rw [List.countP_cons, List.length_cons]
    rcases List.mem_cons.mp ha with h | h
    · subst h
      rw [hpa]
      have h2 := List.countP_le_length p (l := xs)
      simp only [Bool.false_eq_true, if_false]
      omega
    · have h2 := ih h
      cases hx : p x <;> simp [hx] <;> omega

theorem zip_filterMap_length (assets : List GeneratedAsset) (env : ZipEnv) :
    (assets.filterMap (fun a =>
      match env.fetchBlob a.imageUrl with
      | .ok blob => some (a.type ++ "s/" ++ sanitize a.subtype ++ ".png", ZipData.img blob)
      | .error _ => none)).length =
    assets.countP (fun a => exceptOk (env.fetchBlob a.imageUrl)) := by
  induction assets with
  | nil => rfl
  | cons x xs ih =>
    simp only [List.filterMap_cons, List.countP_cons]
    cases hx : env.fetchBlob x.imageUrl with
    | ok blob =>
      rw [show exceptOk (Except.ok blob : Except String String) = true from rfl]
      simp [ih]
    | error m =>
      rw [show exceptOk (Except.error m : Except String String) = false from rfl]
      simp [ih]

/-- C8: in an export with a style descriptor and a non-empty asset
sequence, every asset's payload is fetched; a fetch failure for one asset
skips only that asset, while the manifest and every successfully fetched
asset are still placed — at a path keyed by `<kind>s/<sanitized subtype>`
— and the export is never aborted. -/
theorem zip_failure_isolated (bs : BrandStyle) (assets : List GeneratedAsset)
    (env : ZipEnv) (bad : GeneratedAsset) (m : String)
    (hne : assets ≠ [])
    (hbad : bad ∈ assets) (hfail : env.fetchBlob bad.imageUrl = .error m) :
    (handleDownloadZip (some bs) assets env).fetchAttempts =
      assets.map (fun a => a.imageUrl) ∧
    (handleDownloadZip (some bs) assets env).archive =
      some (sanitize bs.brandName ++ "_BrandKit",
        ("style-guide.json", ZipData.guide
          { name := bs.brandName, theme := bs.themeDescription,
            colors := bs.dominantColors, fonts := bs.fontStyle,
            layout := bs.layoutVibe, generatedAt := env.now }) ::
        assets.filterMap (fun a =>
          match env.fetchBlob a.imageUrl with
          | .ok blob => some (a.type ++ "s/" ++ sanitize a.subtype ++ ".png", .img blob)
          | .error _ => none)) ∧
    (∀ files folderName,
      (handleDownloadZip (some bs) assets env).archive = some (folderName, files) →
      ("style-guide.json", ZipData.guide
        { name := bs.brandName, theme := bs.themeDescription,
          colors := bs.dominantColors, fonts := bs.fontStyle,
          layout := bs.layoutVibe, generatedAt := env.now }) ∈ files ∧
      (∀ a ∈ assets, ∀ blob, env.fetchBlob a.imageUrl = .ok blob →
        (a.type ++ "s/" ++ sanitize a.subtype ++ ".png", ZipData.img blob) ∈ files) ∧
      files.length =
        1 + assets.countP (fun a => exceptOk (env.fetchBlob a.imageUrl)) ∧
      assets.countP (fun a => exceptOk (env.fetchBlob a.imageUrl)) < assets.length) ∧
    (handleDownloadZip (some bs) assets env).savedAs =
      some (bs.brandName ++ "_BrandKit.zip") := by
  have hlen : ¬ assets.length = 0 := by
    simpa [List.length_eq_zero] using hne
  have hzip : handleDownloadZip (some bs) assets env =
      { archive := some (sanitize bs.brandName ++ "_BrandKit",
          ("style-guide.json", .guide
            { name := bs.brandName, theme := bs.themeDescription,
              colors := bs.dominantColors, fonts := bs.fontStyle,
              layout := bs.layoutVibe, generatedAt := env.now }) ::
          assets.filterMap (fun a =>
            match env.fetchBlob a.imageUrl with
            | .ok blob =>
              some (a.type ++ "s/" ++ sanitize a.subtype ++ ".png", .img blob)
            | .error _ => none)),
        fetchAttempts := assets.map (fun a => a.imageUrl),
        savedAs := some (bs.brandName ++ "_BrandKit.zip"),
        setStateCalls := [] } := by
    simp only [handleDownloadZip]
    rw [if_neg hlen]
  refine ⟨by rw [hzip], by rw [hzip], ?_, by rw [hzip]⟩
  intro files folderName harch
  rw [hzip] at harch
  simp only [Option.some.injEq, Prod.mk.injEq] at harch
  obtain ⟨-, hfiles⟩ := harch
  subst hfiles
  refine ⟨List.mem_cons_self _ _, ?_, ?_, ?_⟩
  · intro a ha blob hblob
    refine List.mem_cons_of_mem _ ?_
    rw [List.mem_filterMap]
    refine ⟨a, ha, ?_⟩
    rw [hblob]
  · rw [List.length_cons, zip_filterMap_length]
    omega
  · exact countP_lt_length _ hbad (by rw [hfail]; rfl)

/-- Witness for C8: two assets, the second one's fetch throwing. -/
theorem zip_failure_isolated_witness :
    ([assetOne, assetTwo] : List GeneratedAsset) ≠ [] ∧
    assetTwo ∈ [assetOne, assetTwo] ∧
    zipEnvOne.fetchBlob assetTwo.imageUrl = .error "boom" ∧
    ((handleDownloadZip (some styleOne) [assetOne, assetTwo] zipEnvOne).fetchAttempts =
      [assetOne, assetTwo].map (fun a => a.imageUrl) ∧
    (handleDownloadZip (some styleOne) [assetOne, assetTwo] zipEnvOne).archive =
      some (sanitize styleOne.brandName ++ "_BrandKit",
        ("style-guide.json", ZipData.guide
          { name := styleOne.brandName, theme := styleOne.themeDescription,
            colors := styleOne.dominantColors, fonts := styleOne.fontStyle,
            layout := styleOne.layoutVibe, generatedAt := zipEnvOne.now }) ::
        [assetOne, assetTwo].filterMap (fun a =>
          match zipEnvOne.fetchBlob a.imageUrl with
          | .ok blob => some (a.type ++ "s/" ++ sanitize a.subtype ++ ".png", .img blob)
          | .error _ => none)) ∧
    (∀ files folderName,
      (handleDownloadZip (some styleOne) [assetOne, assetTwo] zipEnvOne).archive =
        some (folderName, files) →
      ("style-guide.json", ZipData.guide
        { name := styleOne.brandName, theme := styleOne.themeDescription,
          colors := styleOne.dominantColors, fonts := styleOne.fontStyle,
          layout := styleOne.layoutVibe, generatedAt := zipEnvOne.now }) ∈ files ∧
      (∀ a ∈ [assetOne, assetTwo], ∀ blob, zipEnvOne.fetchBlob a.imageUrl = .ok blob →
        (a.type ++ "s/" ++ sanitize a.subtype ++ ".png", ZipData.img blob) ∈ files) ∧
      files.length = 1 + [assetOne, assetTwo].countP
        (fun a => exceptOk (zipEnvOne.fetchBlob a.imageUrl)) ∧
      [assetOne, assetTwo].countP (fun a => exceptOk (zipEnvOne.fetchBlob a.imageUrl)) <
        ([assetOne, assetTwo] : List GeneratedAsset).length) ∧
    (handleDownloadZip (some styleOne) [assetOne, assetTwo] zipEnvOne).savedAs =
      some (styleOne.brandName ++ "_BrandKit.zip")) :=
  ⟨by decide, by decide, by decide,
    zip_failure_isolated styleOne [assetOne, assetTwo] zipEnvOne assetTwo "boom"
      (by decide) (by decide) (by decide)⟩

/-- C10: with no style descriptor, or with an empty asset sequence, the
export handler returns immediately — no archive is assembled, no image
payload is fetched, nothing is saved, and no run-state transition is
performed. -/
theorem zip_guard_no_effects (brandStyle : Option BrandStyle)
    (assets : List GeneratedAsset) (env : ZipEnv)
    (h : brandStyle = none ∨ assets = []) :
    (handleDownloadZip brandStyle assets env).archive = none ∧
    (handleDownloadZip brandStyle assets env).fetchAttempts = [] ∧
    (handleDownloadZip brandStyle assets env).savedAs = none ∧
    (handleDownloadZip brandStyle assets env).setStateCalls = [] := by
  rcases h with h | h
  · subst h
    exact ⟨rfl, rfl, rfl, rfl⟩
  · subst h
    cases brandStyle with
    | none => exact ⟨rfl, rfl, rfl, rfl⟩
    | some bs => exact ⟨rfl, rfl, rfl, rfl⟩

/-- Witness for C10 at a concrete present style and empty asset list. -/
theorem zip_guard_no_effects_witness :
    (([] : List GeneratedAsset) = []) ∧
    ((handleDownloadZip (some styleOne) [] zipEnvOne).archive = none ∧
      (handleDownloadZip (some styleOne) [] zipEnvOne).fetchAttempts = [] ∧
      (handleDownloadZip (some styleOne) [] zipEnvOne).savedAs = none ∧
      (handleDownloadZip (some styleOne) [] zipEnvOne).setStateCalls = []) :=
  ⟨rfl, zip_guard_no_effects (some styleOne) [] zipEnvOne (Or.inr rfl)⟩
